import Mathlib

/-!
Verification of the tuskarclient credential resolver, generic resource
manager and plan CLI commands, shallowly embedded from the Python source
(`tuskarclient/common/auth.py`, `tuskarclient/common/base.py`,
`tuskarclient/osc/v2/plan.py`).  Python optional strings become
`Option String`; Python truthiness is made explicit; exceptions become
`Except`; the external identity service is a parameter.
-/

/-- Truthiness of a Python optional string: `None` and `""` are falsy. -/
def pyTruthy : Option String → Bool
  | none => false
  | some s => s != ""

/-- Python `a or b` on an optional string `a` and a string fallback `b`. -/
def pyOr (a : Option String) (b : String) : String :=
  match a with
  | some s => if s != "" then s else b
  | none => b

/-- Credential options of `KeystoneAuthPlugin` (`opt_names` in auth.py). -/
structure Opts where
  username : Option String
  password : Option String
  tenant_id : Option String
  tenant_name : Option String
  token : Option String
  auth_url : Option String
  endpoint : Option String

/-- Model of `self.opts.get(name)`: look an option up by its name. -/
def Opts.get (o : Opts) : String → Option String
  | "username" => o.username
  | "password" => o.password
  | "tenant_id" => o.tenant_id
  | "tenant_name" => o.tenant_name
  | "token" => o.token
  | "auth_url" => o.auth_url
  | "endpoint" => o.endpoint
  | _ => none

@[simp] theorem Opts.get_username (o : Opts) : o.get "username" = o.username := rfl
@[simp] theorem Opts.get_password (o : Opts) : o.get "password" = o.password := rfl
@[simp] theorem Opts.get_tenant_id (o : Opts) : o.get "tenant_id" = o.tenant_id := rfl
@[simp] theorem Opts.get_tenant_name (o : Opts) : o.get "tenant_name" = o.tenant_name := rfl
@[simp] theorem Opts.get_token (o : Opts) : o.get "token" = o.token := rfl
@[simp] theorem Opts.get_auth_url (o : Opts) : o.get "auth_url" = o.auth_url := rfl
@[simp] theorem Opts.get_endpoint (o : Opts) : o.get "endpoint" = o.endpoint := rfl

/-- Service catalog of an authenticated keystone client; `url_for` is the
catalog lookup keyed by keyword arguments (service_type, endpoint_type). -/
structure ServiceCatalog where
  url_for : Option String → Option String → String

/-- Keystone client obtained from the identity service. -/
structure KsClient where
  auth_token : String
  service_catalog : ServiceCatalog

/-- Keyword arguments passed to `ksclient.Client(**ks_kwargs)`. -/
structure KsKwargs where
  username : Option String
  password : Option String
  tenant_id : Option String
  tenant_name : Option String
  auth_url : Option String

/-- The `ks_kwargs` dict built by `_do_authenticate`. -/
def ks_kwargs_of (o : Opts) : KsKwargs :=
  ⟨o.username, o.password, o.tenant_id, o.tenant_name, o.auth_url⟩

/-- State of a `KeystoneAuthPlugin`: its options and the optional cached
keystone client (`hasattr(self, '_ksclient')`). -/
structure KeystoneAuthPlugin where
  opts : Opts
  ksclient : Option KsClient

/-- Model of `KeystoneAuthPlugin._do_authenticate`.  `identity` is the
external identity service answering `ksclient.Client(**ks_kwargs)`; the
returned `Nat` counts identity-service network calls made. -/
def do_authenticate (identity : KsKwargs → KsClient)
    (p : KeystoneAuthPlugin) : KeystoneAuthPlugin × Nat :=
  if p.opts.get "token" = none then
    ({ p with ksclient := some (identity (ks_kwargs_of p.opts)) }, 1)
  else
    (p, 0)

/-- Model of `KeystoneAuthPlugin.token_and_endpoint`. -/
def token_and_endpoint (p : KeystoneAuthPlugin)
    (endpoint_type service_type : Option String) :
    Option String × Option String :=
  if pyTruthy (p.opts.get "token") && pyTruthy (p.opts.get "endpoint") then
    (p.opts.get "token", p.opts.get "endpoint")
  else
    match p.ksclient with
    | some ks =>
        (some ks.auth_token,
         some (pyOr (p.opts.get "endpoint")
           (ks.service_catalog.url_for
             (some (pyOr service_type "management")) endpoint_type)))
    | none => (none, none)

/-- Error payload of `AuthPluginOptionsMissing`: the constructor receives
either the joined tenant-alternative string (`' or '.join(tenant_opts)`) or
the list of missing option names. -/
abbrev AuthMissing := Sum String (List String)

/-- Model of `KeystoneAuthPlugin.sufficient_options`. -/
def sufficient_options (o : Opts) : Except AuthMissing Unit :=
  if pyTruthy (o.get "token") then
    let lookup_table := ["token", "endpoint"]
    let missing := lookup_table.filter (fun opt => !(pyTruthy (o.get opt)))
    if missing.isEmpty then .ok () else .error (.inr missing)
  else
    let tenant_opts := ["tenant_id", "tenant_name"]
    if tenant_opts.any (fun opt => pyTruthy (o.get opt)) then
      let lookup_table := ["username", "password", "auth_url"]
      let missing := lookup_table.filter (fun opt => !(pyTruthy (o.get opt)))
      if missing.isEmpty then .ok () else .error (.inr missing)
    else
      .error (.inl (String.intercalate " or " tenant_opts))

/-- JSON values carried by HTTP response bodies. -/
inductive Json where
  | null
  | bool (b : Bool)
  | num (n : Int)
  | str (s : String)
  | arr (elems : List Json)
  | obj (entries : List (String × Json))

/-- Python truthiness of a JSON value. -/
def truthy : Json → Bool
  | .null => false
  | .bool b => b
  | .num n => n != 0
  | .str s => s != ""
  | .arr elems => !elems.isEmpty
  | .obj entries => !entries.isEmpty

/-- Python exceptions that escape the manager code paths modelled here. -/
inductive PyErr where
  | typeError
  | valueError (msg : String)
deriving DecidableEq

/-- Resource objects built by `obj_class(self, res, loaded=True)`: a value
object wrapping a JSON document. -/
structure Resource where
  info : Json

/-- Python iteration over a JSON value: lists yield their elements, strings
their characters, dicts their keys; other values raise `TypeError`. -/
def pyIter : Json → Except PyErr (List Json)
  | .arr elems => .ok elems
  | .str s => .ok (s.toList.map (fun c => Json.str c.toString))
  | .obj entries => .ok (entries.map (fun kv => Json.str kv.1))
  | _ => .error .typeError

/-- The tail of `Manager._list`: wrap `data` in a one-element list when
`expect_single` is set, then build one Resource per truthy element
(`[obj_class(self, res, loaded=True) for res in data if res]`). -/
def build_resources (data : Json) (expect_single : Bool) :
    Except PyErr (List Resource) :=
  if expect_single then
    .ok (([data].filter truthy).map Resource.mk)
  else
    match pyIter data with
    | .ok elems => .ok ((elems.filter truthy).map Resource.mk)
    | .error e => .error e

/-- Model of `Manager._list` applied to the GET response `body`.  A present
`response_key` indexes the body; a `KeyError` (key absent from a dict body)
is caught and yields `[]`, while indexing a non-dict body raises
`TypeError`, which is not caught. -/
def manager_list (body : Json) (response_key : Option String)
    (expect_single : Bool) : Except PyErr (List Resource) :=
  match response_key with
  | some key =>
    match body with
    | .obj entries =>
      match List.lookup key entries with
      | some data => build_resources data expect_single
      | none => .ok []
    | _ => .error .typeError
  | none => build_resources body expect_single

/-- Model of `Manager._get`: `_list` with `expect_single` defaulted to
`True`, taking element 0 and turning `IndexError` into `None`. -/
def manager_get (body : Json) (response_key : Option String) :
    Except PyErr (Option Resource) :=
  match manager_list body response_key true with
  | .ok l => .ok l.head?
  | .error e => .error e

/-- Model of `Manager._single_path`: reject a falsy id with `ValueError`
before calling the subclass path builder `path`. -/
def single_path (path : String → String) (resource_class : String)
    (id : Option String) : Except PyErr String :=
  match id with
  | some s =>
      if s != "" then .ok (path s)
      else .error (.valueError (resource_class ++ " id is required."))
  | none => .error (.valueError (resource_class ++ " id is required."))

/-- Modelled from the spec: the per-resource `delete(id)` wrappers (the v2
managers) are not under src/.  Per spec section 4.3, `delete(id)` issues a
DELETE (`Manager._delete`, i.e. `raw_request('DELETE', url)`) to the
single-resource path built by `_single_path`.  The result lists the HTTP
requests issued. -/
def manager_delete (path : String → String) (resource_class : String)
    (id : Option String) : Except PyErr (List (String × String)) :=
  match single_path path resource_class id with
  | .ok url => .ok [("DELETE", url)]
  | .error e => .error e

/-- Role of a plan, as consumed by the patch marshaler. -/
structure Role where
  name : String
  id : String

/-- Patch operation triple sent as the update request body. -/
structure PatchOp where
  op : String
  path : String
  value : String
deriving DecidableEq

/-- Split a CLI `KEY=VALUE` string at its first equals sign. -/
def split_kv (s : String) : String × String :=
  let parts := s.splitOn "="
  (parts.headD s, String.intercalate "=" parts.tail)

/-- Modelled from the spec: `tuskarclient/common/utils.py` is not under
src/.  Per spec section 4.2, parameter patch-building emits one add-style
patch operation per `KEY=VALUE` pair against a parameters path, in
argument order.  `none` models the absent argparse default. -/
def parameters_args_to_patch (args : Option (List String)) : List PatchOp :=
  (args.getD []).map (fun s =>
    let kv := split_kv s
    { op := "add", path := "parameters/" ++ kv.1, value := kv.2 })

/-- Modelled from the spec: helper of role patch-building, resolving each
`ROLE=VALUE` pair against the role set by exact name match and failing on
the first unresolvable role name. -/
def args_to_patch_aux (roles : List Role) (key : String) :
    List String → Except String (List PatchOp)
  | [] => .ok []
  | s :: rest =>
    let kv := split_kv s
    match roles.find? (fun r => r.name == kv.1) with
    | none => .error ("role not found: " ++ kv.1)
    | some r =>
      match args_to_patch_aux roles key rest with
      | .ok ops =>
          .ok ({ op := "replace", path := r.id ++ "/" ++ key,
                 value := kv.2 } :: ops)
      | .error e => .error e

/-- Modelled from the spec: `tuskarclient/common/utils.py` is not under
src/.  Per spec section 4.2, flavor/scale patch-building resolves each
`ROLE=VALUE` string to the matching role identifier, fails with a
role-not-found condition when no exact name match exists, and emits one
patch operation per resolved pair targeting the role identifier and the
target field. -/
def args_to_patch (args : Option (List String)) (roles : List Role)
    (key : String) : Except String (List PatchOp) :=
  args_to_patch_aux roles key (args.getD [])

/-- Plan operations issued to the management service by a CLI command. -/
inductive PlanOp where
  | get (uuid : String)
  | patch (uuid : String) (body : List PatchOp)

/-- Parsed arguments of the `plan set` command. -/
structure SetPlanArgs where
  plan_uuid : String
  parameters : Option (List String)
  flavors : Option (List String)
  scales : Option (List String)

/-- Model of `SetManagementPlan.take_action` from osc/v2/plan.py:
fetch the plan (its roles are `plan_roles`), marshal the arguments into a
patch, and update only when the patch is non-empty.  Returns the plan
operations issued in order and whether the no-update warning was printed;
a marshaling failure propagates as an error. -/
def set_plan_take_action (args : SetPlanArgs) (plan_roles : List Role) :
    Except String (List PlanOp × Bool) :=
  match args_to_patch args.flavors plan_roles "Flavor",
        args_to_patch args.scales plan_roles "count" with
  | .ok fl, .ok sc =>
      let patch := parameters_args_to_patch args.parameters ++ fl ++ sc
      if patch.length > 0 then
        .ok ([PlanOp.get args.plan_uuid, PlanOp.patch args.plan_uuid patch],
             false)
      else
        .ok ([PlanOp.get args.plan_uuid], true)
  | .error e, _ => .error e
  | _, .error e => .error e

/-- Assignment into a Python dict modelled as an ordered association list:
replace the value in place when the key exists, append otherwise. -/
def dictSet : List (String × Json) → String → Json → List (String × Json)
  | [], k, v => [(k, v)]
  | kv :: rest, k, v =>
      if kv.1 = k then (k, v) :: rest else kv :: dictSet rest k v

/-- Dict lookup on the ordered association list. -/
def dictGet : List (String × Json) → String → Option Json
  | [], _ => none
  | kv :: rest, k => if kv.1 = k then some kv.2 else dictGet rest k

/-- Python `key in dict`. -/
def hasKey (d : List (String × Json)) (k : String) : Bool :=
  d.any (fun kv => kv.1 == k)

/-- The literal parameter-suppression notice printed by `plan show`. -/
def suppress_notice : String :=
  "Parameter output suppressed. Use --long to display them."

/-- Model of `ShowManagementPlan.take_action` from osc/v2/plan.py, applied
to the fetched plan's dict and the names of its roles: without `--long`,
a present parameters entry is replaced by the suppression notice and the
roles entry by the comma-joined role names. -/
def show_plan_take_action (plan_dict : List (String × Json))
    (role_names : List String) (long : Bool) : List (String × Json) :=
  if !long then
    let d1 :=
      if hasKey plan_dict "parameters" then
        dictSet plan_dict "parameters" (Json.str suppress_notice)
      else plan_dict
    dictSet d1 "roles" (Json.str (String.intercalate ", " role_names))
  else plan_dict

/-- Definition following the spec's words, for comparison with
`token_and_endpoint`: resolve the target endpoint by looking up the catalog
by (service_type, endpoint_type), where endpoint_type defaults to
"management" if unspecified; an explicitly supplied endpoint override, if
present, always takes precedence over catalog lookup. -/
def spec_resolved_endpoint (ks : KsClient) (o : Opts)
    (endpoint_type service_type : Option String) : String :=
  pyOr (o.get "endpoint")
    (ks.service_catalog.url_for service_type
      (some (pyOr endpoint_type "management")))

/-- Credential options with every field absent. -/
def emptyOpts : Opts := ⟨none, none, none, none, none, none, none⟩

/-- Identity service fixture returning a fixed keystone client. -/
def fixtureIdentity : KsKwargs → KsClient :=
  fun _ => ⟨"t", ⟨fun _ _ => "u"⟩⟩

/-- Plugin fixture in token mode: token and endpoint both set. -/
def tokenModePlugin : KeystoneAuthPlugin :=
  ⟨{ emptyOpts with token := some "tok", endpoint := some "ep" }, none⟩

/-- Service catalog fixture whose lookup distinguishes whether the
endpoint_type keyword argument was defaulted to "management". -/
def probeCatalog : ServiceCatalog :=
  ⟨fun _ endpoint_type =>
    if endpoint_type = some "management" then "A" else "B"⟩

/-- Keystone client fixture over the probing catalog. -/
def probeKs : KsClient := ⟨"tok", probeCatalog⟩

/-- Plugin fixture in password mode (no token), authenticated, without an
endpoint override. -/
def passwordModePlugin : KeystoneAuthPlugin := ⟨emptyOpts, some probeKs⟩

/-- Plugin fixture in password mode with an explicit endpoint override. -/
def overridePlugin : KeystoneAuthPlugin :=
  ⟨{ emptyOpts with endpoint := some "E" }, some probeKs⟩

/-- Plugin fixture with a token but no endpoint and no cached client. -/
def tokenOnlyPlugin : KeystoneAuthPlugin :=
  ⟨{ emptyOpts with token := some "tok" }, none⟩

/-- Options fixture with username, password and auth_url present but no
token and no tenant fields. -/
def noTenantOpts : Opts :=
  { emptyOpts with username := some "u", password := some "p",
                   auth_url := some "http://ks" }

/-- Options fixture with a tenant id present but no token and no
auth_url. -/
def tenantOnlyOpts : Opts := { emptyOpts with tenant_id := some "tid" }

/-- Arguments fixture for `plan set` with a single parameter argument. -/
def setOneParamArgs : SetPlanArgs := ⟨"u1", some ["a=1"], none, none⟩

/-- Plan dict fixture with uuid, parameters and roles entries. -/
def showPlanDict : List (String × Json) :=
  [("uuid", Json.str "u1"),
   ("parameters", Json.arr [Json.obj [("name", Json.str "p")]]),
   ("roles", Json.arr [Json.obj [("name", Json.str "Compute")]])]

theorem pyTruthy_ne_none {a : Option String} (h : pyTruthy a = true) :
    a ≠ none := by
  cases a with
  | none => simp [pyTruthy] at h
  | some s => simp

theorem pyOr_of_truthy {a : Option String} (b : String)
    (h : pyTruthy a = true) : some (pyOr a b) = a := by
  cases a with
  | none => simp [pyTruthy] at h
  | some s =>
      simp only [pyTruthy] at h
      simp [pyOr, h]

theorem dictGet_dictSet_self (d : List (String × Json)) (k : String)
    (v : Json) : dictGet (dictSet d k v) k = some v := by
  induction d with
  | nil => simp [dictSet, dictGet]
  | cons kv rest ih =>
      by_cases h : kv.1 = k
      · simp [dictSet, dictGet, h]
      · simp [dictSet, dictGet, h, ih]

theorem dictGet_dictSet_of_ne (d : List (String × Json)) (k k2 : String)
    (v : Json) (h : k ≠ k2) :
    dictGet (dictSet d k2 v) k = dictGet d k := by
  induction d with
  | nil => simp [dictSet, dictGet, Ne.symm h]
  | cons kv rest ih =>
      by_cases hk : kv.1 = k2
      · simp [dictSet, dictGet, hk, Ne.symm h]
      · by_cases hk2 : kv.1 = k
        · simp [dictSet, dictGet, hk, hk2, h]
        · simp [dictSet, dictGet, hk, hk2, ih]

/-- C1: with both token and endpoint set, `_do_authenticate` makes no
identity-service call and leaves the plugin unchanged, and
`token_and_endpoint` returns exactly the pair from the credentials;
repeating the resolution yields the same pair. -/
theorem token_mode_resolution_exact (identity : KsKwargs → KsClient)
    (p : KeystoneAuthPlugin) (endpoint_type service_type : Option String)
    (htok : pyTruthy (p.opts.get "token") = true)
    (hend : pyTruthy (p.opts.get "endpoint") = true) :
    do_authenticate identity p = (p, 0)
    ∧ token_and_endpoint p endpoint_type service_type
        = (p.opts.get "token", p.opts.get "endpoint")
    ∧ token_and_endpoint (do_authenticate identity p).1 endpoint_type
        service_type = (p.opts.get "token", p.opts.get "endpoint") := by
  have hauth : do_authenticate identity p = (p, 0) := by
    unfold do_authenticate
    rw [if_neg (pyTruthy_ne_none htok)]
  have hres : token_and_endpoint p endpoint_type service_type
      = (p.opts.get "token", p.opts.get "endpoint") := by
    unfold token_and_endpoint
    rw [htok, hend]
    simp
  refine ⟨hauth, hres, ?_⟩
  rw [hauth]
  exact hres

/-- Witness for C1 at a concrete token-mode plugin. -/
theorem token_mode_resolution_exact_witness :
    pyTruthy (tokenModePlugin.opts.get "token") = true
    ∧ pyTruthy (tokenModePlugin.opts.get "endpoint") = true
    ∧ (do_authenticate fixtureIdentity tokenModePlugin = (tokenModePlugin, 0)
       ∧ token_and_endpoint tokenModePlugin none none
           = (tokenModePlugin.opts.get "token",
              tokenModePlugin.opts.get "endpoint")
       ∧ token_and_endpoint
           (do_authenticate fixtureIdentity tokenModePlugin).1 none none
           = (tokenModePlugin.opts.get "token",
              tokenModePlugin.opts.get "endpoint")) :=
  ⟨by decide, by decide,
   token_mode_resolution_exact fixtureIdentity tokenModePlugin none none
     (by decide) (by decide)⟩

/-- C10: with a token set but no endpoint and no cached keystone client,
`token_and_endpoint` returns the pair (None, None). -/
theorem token_without_endpoint_returns_none_pair
    (p : KeystoneAuthPlugin) (endpoint_type service_type : Option String)
    (htok : pyTruthy (p.opts.get "token") = true)
    (hend : pyTruthy (p.opts.get "endpoint") = false)
    (hks : p.ksclient = none) :
    token_and_endpoint p endpoint_type service_type = (none, none) := by
  unfold token_and_endpoint
  rw [htok, hend, hks]
  simp

/-- Witness for C10 at a concrete token-only plugin. -/
theorem token_without_endpoint_returns_none_pair_witness :
    pyTruthy (tokenOnlyPlugin.opts.get "token") = true
    ∧ pyTruthy (tokenOnlyPlugin.opts.get "endpoint") = false
    ∧ tokenOnlyPlugin.ksclient = none
    ∧ token_and_endpoint tokenOnlyPlugin none none = (none, none) :=
  ⟨by decide, by decide, rfl,
   token_without_endpoint_returns_none_pair tokenOnlyPlugin none none
     (by decide) (by decide) rfl⟩

/-- C2 counterexample: with endpoint_type unspecified and service_type
equal to "compute", the code looks the catalog up with endpoint_type left
unset (it is service_type that is defaulted to "management"), while the
spec's resolution rule defaults endpoint_type; on a catalog that
distinguishes the two the resolved endpoints differ. -/
theorem endpoint_default_applies_to_service_type_cex :
    (token_and_endpoint passwordModePlugin none (some "compute")).2
      = some "B"
    ∧ spec_resolved_endpoint probeKs passwordModePlugin.opts none
        (some "compute") = "A"
    ∧ (token_and_endpoint passwordModePlugin none (some "compute")).2
        ≠ some (spec_resolved_endpoint probeKs passwordModePlugin.opts none
                 (some "compute")) :=
  ⟨rfl, rfl, by decide⟩

/-- C2 (amended): in password mode with an authenticated client, the
resolved endpoint is the catalog lookup where the defaulting to
"management" applies to service_type (endpoint_type is passed through
unchanged), and an explicit endpoint override takes precedence over the
catalog lookup. -/
theorem password_mode_endpoint_resolution (p : KeystoneAuthPlugin)
    (ks : KsClient) (endpoint_type service_type : Option String)
    (htok : pyTruthy (p.opts.get "token") = false)
    (hks : p.ksclient = some ks) :
    token_and_endpoint p endpoint_type service_type
      = (some ks.auth_token,
         some (pyOr (p.opts.get "endpoint")
           (ks.service_catalog.url_for
             (some (pyOr service_type "management")) endpoint_type)))
    ∧ (pyTruthy (p.opts.get "endpoint") = true →
        (token_and_endpoint p endpoint_type service_type).2
          = p.opts.get "endpoint") := by
  have hmain : token_and_endpoint p endpoint_type service_type
      = (some ks.auth_token,
         some (pyOr (p.opts.get "endpoint")
           (ks.service_catalog.url_for
             (some (pyOr service_type "management")) endpoint_type))) := by
    unfold token_and_endpoint
    rw [htok, hks]
    simp
  refine ⟨hmain, fun hend => ?_⟩
  rw [hmain]
  exact pyOr_of_truthy _ hend

/-- Witness for the amended C2 at a plugin with an endpoint override. -/
theorem password_mode_endpoint_resolution_witness :
    pyTruthy (overridePlugin.opts.get "token") = false
    ∧ overridePlugin.ksclient = some probeKs
    ∧ pyTruthy (overridePlugin.opts.get "endpoint") = true
    ∧ (token_and_endpoint overridePlugin none none).2
        = overridePlugin.opts.get "endpoint" :=
  ⟨by decide, rfl, by decide,
   (password_mode_endpoint_resolution overridePlugin probeKs none none
     (by decide) rfl).2 (by decide)⟩

/-- C3 counterexample: with no token, no auth_url and neither tenant field
set, `sufficient_options` raises the tenant-alternative error, whose
payload is the joined string "tenant_id or tenant_name" and not a list of
missing fields naming auth_url. -/
theorem missing_auth_url_without_tenant_cex :
    sufficient_options emptyOpts
      = .error (.inl "tenant_id or tenant_name") := rfl

/-- C3 (amended): with no token, no auth_url and at least one tenant field
set, `sufficient_options` fails with the missing-options error whose list
of missing fields contains auth_url. -/
theorem missing_auth_url_named_with_tenant_present (o : Opts)
    (htok : pyTruthy (o.get "token") = false)
    (hurl : pyTruthy (o.get "auth_url") = false)
    (hten : (["tenant_id", "tenant_name"].any
      (fun opt => pyTruthy (o.get opt))) = true) :
    sufficient_options o
      = .error (.inr ((["username", "password", "auth_url"]).filter
          (fun opt => !(pyTruthy (o.get opt)))))
    ∧ "auth_url" ∈ (["username", "password", "auth_url"]).filter
          (fun opt => !(pyTruthy (o.get opt))) := by
  have hmem : "auth_url" ∈ (["username", "password", "auth_url"]).filter
      (fun opt => !(pyTruthy (o.get opt))) := by
    apply List.mem_filter.mpr
    refine ⟨by simp, ?_⟩
    simp only [hurl, Bool.not_false]
  refine ⟨?_, hmem⟩
  unfold sufficient_options
  rw [htok]
  simp only [Bool.false_eq_true, if_false]
  rw [hten]
  simp only [if_true]
  have hne : (["username", "password", "auth_url"]).filter
      (fun opt => !(pyTruthy (o.get opt))) ≠ [] :=
    List.ne_nil_of_mem hmem
  rw [if_neg ?_]
  intro hemp
  exact hne (List.isEmpty_iff.mp hemp)

/-- Witness for the amended C3 at options with only a tenant id set. -/
theorem missing_auth_url_named_with_tenant_present_witness :
    pyTruthy (tenantOnlyOpts.get "token") = false
    ∧ pyTruthy (tenantOnlyOpts.get "auth_url") = false
    ∧ (["tenant_id", "tenant_name"].any
        (fun opt => pyTruthy (tenantOnlyOpts.get opt))) = true
    ∧ (sufficient_options tenantOnlyOpts
        = .error (.inr ((["username", "password", "auth_url"]).filter
            (fun opt => !(pyTruthy (tenantOnlyOpts.get opt)))))
       ∧ "auth_url" ∈ (["username", "password", "auth_url"]).filter
            (fun opt => !(pyTruthy (tenantOnlyOpts.get opt)))) :=
  ⟨by decide, by decide, by decide,
   missing_auth_url_named_with_tenant_present tenantOnlyOpts
     (by decide) (by decide) (by decide)⟩

/-- C4: with no token and neither tenant field set, `sufficient_options`
raises the distinct tenant-alternative error regardless of whether
username, password or auth_url are present. -/
theorem tenant_alternative_error_first (o : Opts)
    (htok : pyTruthy (o.get "token") = false)
    (hti : pyTruthy (o.get "tenant_id") = false)
    (htn : pyTruthy (o.get "tenant_name") = false) :
    sufficient_options o = .error (.inl "tenant_id or tenant_name") := by
  unfold sufficient_options
  rw [htok]
  simp only [Bool.false_eq_true, if_false]
  rw [if_neg ?_]
  · rfl
  · simp only [List.any_cons, List.any_nil, Bool.or_false, Bool.or_eq_true]
    rw [hti, htn]
    simp

/-- Witness for C4 at options where username, password and auth_url are
all present but both tenant fields are absent. -/
theorem tenant_alternative_error_first_witness :
    pyTruthy (noTenantOpts.get "token") = false
    ∧ pyTruthy (noTenantOpts.get "tenant_id") = false
    ∧ pyTruthy (noTenantOpts.get "tenant_name") = false
    ∧ sufficient_options noTenantOpts
        = .error (.inl "tenant_id or tenant_name") :=
  ⟨by decide, by decide, by decide,
   tenant_alternative_error_first noTenantOpts
     (by decide) (by decide) (by decide)⟩

/-- C5: whenever the single-element-wrapped result set built by `_list`
is empty (it contains zero truthy elements), `_get` returns None rather
than raising or returning an error. -/
theorem get_empty_result_returns_none (body : Json)
    (response_key : Option String) (l : List Resource)
    (h : manager_list body response_key true = .ok l) (hl : l = []) :
    manager_get body response_key = .ok none := by
  unfold manager_get
  rw [h, hl]
  rfl

/-- Witness for C5 at an empty-dict response body. -/
theorem get_empty_result_returns_none_witness :
    manager_list (Json.obj []) none true = .ok []
    ∧ ([] : List Resource) = []
    ∧ manager_get (Json.obj []) none = .ok none :=
  ⟨rfl, rfl, get_empty_result_returns_none (Json.obj []) none [] rfl rfl⟩

/-- C6: a falsy id makes `_single_path` raise ValueError independently of
the path builder (no path is constructed), so the delete flow issues no
HTTP request. -/
theorem delete_empty_id_validation (path : String → String)
    (resource_class : String) (id : Option String)
    (h : pyTruthy id = false) :
    single_path path resource_class id
      = .error (.valueError (resource_class ++ " id is required."))
    ∧ (∀ path2 : String → String,
        single_path path2 resource_class id
          = single_path path resource_class id)
    ∧ manager_delete path resource_class id
      = .error (.valueError (resource_class ++ " id is required.")) := by
  have hsingle : ∀ path2 : String → String,
      single_path path2 resource_class id
        = .error (.valueError (resource_class ++ " id is required.")) := by
    intro path2
    cases id with
    | none => rfl
    | some s =>
        simp only [pyTruthy] at h
        simp [single_path, h]
  refine ⟨hsingle path, fun path2 => (hsingle path2).trans (hsingle path).symm, ?_⟩
  unfold manager_delete
  rw [hsingle path]

/-- Witness for C6 at the empty-string id. -/
theorem delete_empty_id_validation_witness :
    pyTruthy (some "") = false
    ∧ (single_path (fun s => "/v2/plans/" ++ s) "Plan" (some "")
        = .error (.valueError ("Plan" ++ " id is required."))
       ∧ (∀ path2 : String → String,
           single_path path2 "Plan" (some "")
             = single_path (fun s => "/v2/plans/" ++ s) "Plan" (some ""))
       ∧ manager_delete (fun s => "/v2/plans/" ++ s) "Plan" (some "")
        = .error (.valueError ("Plan" ++ " id is required."))) :=
  ⟨by decide,
   delete_empty_id_validation (fun s => "/v2/plans/" ++ s) "Plan" (some "")
     (by decide)⟩

/-- C7: `_list` builds one Resource per truthy element of the response
array in order, skipping falsy elements; a response_key absent from the
body and an empty collection response both yield the empty list rather
than an error. -/
theorem list_builds_resources_per_truthy_element
    (xs ys : List Json) (entries entries2 : List (String × Json))
    (key key2 : String)
    (habsent : List.lookup key entries = none)
    (hnested : List.lookup key2 entries2 = some (Json.arr ys)) :
    manager_list (Json.arr xs) none false
      = .ok ((xs.filter truthy).map Resource.mk)
    ∧ manager_list (Json.obj entries2) (some key2) false
      = .ok ((ys.filter truthy).map Resource.mk)
    ∧ manager_list (Json.obj entries) (some key) false = .ok []
    ∧ manager_list (Json.arr []) none false = .ok [] := by
  refine ⟨rfl, ?_, ?_, rfl⟩
  · simp only [manager_list, hnested]
    rfl
  · simp only [manager_list, habsent]

/-- Witness for C7 at concrete response bodies, with a falsy element
skipped inside the nested array. -/
theorem list_builds_resources_per_truthy_element_witness :
    List.lookup "plans" [("x", Json.null)] = none
    ∧ List.lookup "plans"
        [("plans", Json.arr [Json.obj [("name", Json.str "a")], Json.null])]
        = some (Json.arr [Json.obj [("name", Json.str "a")], Json.null])
    ∧ (manager_list
         (Json.arr [Json.obj [("name", Json.str "a")], Json.null]) none false
         = .ok ((([Json.obj [("name", Json.str "a")],
                   Json.null]).filter truthy).map Resource.mk)
       ∧ manager_list
           (Json.obj [("plans",
             Json.arr [Json.obj [("name", Json.str "a")], Json.null])])
           (some "plans") false
           = .ok ((([Json.obj [("name", Json.str "a")],
                     Json.null]).filter truthy).map Resource.mk)
       ∧ manager_list (Json.obj [("x", Json.null)]) (some "plans") false
           = .ok []
       ∧ manager_list (Json.arr []) none false = .ok []) :=
  ⟨rfl, rfl,
   list_builds_resources_per_truthy_element
     [Json.obj [("name", Json.str "a")], Json.null]
     [Json.obj [("name", Json.str "a")], Json.null]
     [("x", Json.null)]
     [("plans", Json.arr [Json.obj [("name", Json.str "a")], Json.null])]
     "plans" "plans" rfl rfl⟩

/-- C8 counterexample: a `plan set` invocation with no parameter, flavor
or scale arguments issues only the GET (with the no-update warning) and no
patch update, so the command does not always issue a GET followed by a
PUT-style patch. -/
theorem set_plan_no_args_skips_update_cex :
    set_plan_take_action ⟨"u1", none, none, none⟩ []
      = .ok ([PlanOp.get "u1"], true) := rfl

/-- C8 (amended): `plan set` issues a GET for the plan and then a
PUT-style patch update exactly when the marshaled patch is non-empty;
with an empty patch it issues only the GET and warns. -/
theorem set_plan_get_then_patch (args : SetPlanArgs)
    (plan_roles : List Role) (fl sc : List PatchOp)
    (hfl : args_to_patch args.flavors plan_roles "Flavor" = .ok fl)
    (hsc : args_to_patch args.scales plan_roles "count" = .ok sc) :
    (parameters_args_to_patch args.parameters ++ fl ++ sc ≠ [] →
      set_plan_take_action args plan_roles
        = .ok ([PlanOp.get args.plan_uuid,
                PlanOp.patch args.plan_uuid
                  (parameters_args_to_patch args.parameters ++ fl ++ sc)],
               false))
    ∧ (parameters_args_to_patch args.parameters ++ fl ++ sc = [] →
      set_plan_take_action args plan_roles
        = .ok ([PlanOp.get args.plan_uuid], true)) := by
  constructor
  · intro hne
    have hlen : 0 < (parameters_args_to_patch args.parameters
        ++ fl ++ sc).length := List.length_pos.mpr hne
    simp only [set_plan_take_action, hfl, hsc, gt_iff_lt, hlen, if_true]
  · intro hemp
    simp only [set_plan_take_action, hfl, hsc, hemp]
    simp

/-- Witness for the amended C8 at a `plan set` with one parameter
argument. -/
theorem set_plan_get_then_patch_witness :
    args_to_patch setOneParamArgs.flavors [] "Flavor" = .ok []
    ∧ args_to_patch setOneParamArgs.scales [] "count" = .ok []
    ∧ parameters_args_to_patch setOneParamArgs.parameters ++ [] ++ [] ≠ []
    ∧ set_plan_take_action setOneParamArgs []
        = .ok ([PlanOp.get setOneParamArgs.plan_uuid,
                PlanOp.patch setOneParamArgs.plan_uuid
                  (parameters_args_to_patch setOneParamArgs.parameters
                    ++ [] ++ [])],
               false) :=
  ⟨rfl, rfl, by decide,
   (set_plan_get_then_patch setOneParamArgs [] [] [] rfl rfl).1 (by decide)⟩

/-- C9: `plan show` without `--long` replaces a present parameters entry
of the displayed dict by the literal suppression notice and the roles
entry by the comma-joined role names. -/
theorem show_plan_suppresses_parameters_and_joins_roles
    (plan_dict : List (String × Json)) (role_names : List String)
    (hpar : hasKey plan_dict "parameters" = true) :
    dictGet (show_plan_take_action plan_dict role_names false) "parameters"
      = some (Json.str suppress_notice)
    ∧ dictGet (show_plan_take_action plan_dict role_names false) "roles"
      = some (Json.str (String.intercalate ", " role_names)) := by
  unfold show_plan_take_action
  rw [hpar]
  simp only [Bool.not_false, if_true]
  constructor
  · rw [dictGet_dictSet_of_ne _ _ _ _ (by decide)]
    exact dictGet_dictSet_self _ _ _
  · exact dictGet_dictSet_self _ _ _

/-- Witness for C9 at a one-role plan: roles shown as the literal string
"Compute" and parameters as the suppression notice. -/
theorem show_plan_suppresses_parameters_and_joins_roles_witness :
    hasKey showPlanDict "parameters" = true
    ∧ (dictGet (show_plan_take_action showPlanDict ["Compute"] false)
         "parameters" = some (Json.str suppress_notice)
       ∧ dictGet (show_plan_take_action showPlanDict ["Compute"] false)
         "roles" = some (Json.str (String.intercalate ", " ["Compute"]))) :=
  ⟨by decide,
   show_plan_suppresses_parameters_and_joins_roles showPlanDict ["Compute"]
     (by decide)⟩
